import Mathlib

/-!
Verification development for the ostinato-fetch fragment-navigation
components (`src/ostinato-fetch.js`).  The definitions below are a shallow
embedding of the current (LitElement) generation of the two components,
`OstinatoFetch` and `OstinatoFetchTriggers`, together with small models of
the browser platform facilities the code relies on (`URL`,
`encodeURIComponent`, `String.prototype.split`, the DOM subtrees touched by
`_insertContent`, the history API, and the asynchronous delivery of fetch
responses).  Each theorem settles one claim about the code.
-/

namespace Ostinato

/-! ## Platform model: strings and URLs -/

/-- Split a character list at the first occurrence of the separator
sequence `://`, returning the scheme part and the remainder.  Models the
scheme detection performed by the platform `URL` constructor. -/
def splitSchemeSep : List Char → Option (List Char × List Char)
  | [] => none
  | ':' :: '/' :: '/' :: rest => some ([], rest)
  | c :: rest =>
    match splitSchemeSep rest with
    | some p => some (c :: p.1, p.2)
    | none => none

/-- Take characters until one of the stop characters is reached. -/
def takeUntilChars (stops : List Char) : List Char → List Char × List Char
  | [] => ([], [])
  | c :: rest =>
    if stops.contains c then ([], c :: rest)
    else
      let p := takeUntilChars stops rest
      (c :: p.1, p.2)

/-- Split a character list into path, search and fragment components, the
way the platform `URL` constructor does for the part after the host. -/
def parsePathSearchFrag (cs : List Char) : String × String × String :=
  let p := takeUntilChars ['?', '#'] cs
  match p.2 with
  | '?' :: rest =>
    let q := takeUntilChars ['#'] rest
    (String.mk p.1, String.mk ('?' :: q.1), String.mk q.2)
  | other => (String.mk p.1, "", String.mk other)

/-- The result of `new URL(url, base)`: the components the code reads. -/
structure URLM where
  origin : String
  pathname : String
  search : String
  frag : String
deriving DecidableEq, Repr

/-- The directory part of a path: everything up to and including the last
slash.  Used for relative URL resolution. -/
def dirOf (p : String) : String :=
  String.mk ((p.toList.reverse.dropWhile (fun c => c ≠ '/')).reverse)

/-- Origin and path of an absolute base URL string. -/
def parseOriginPath (s : String) : String × String :=
  match splitSchemeSep s.toList with
  | some sp =>
    let hp := takeUntilChars ['/', '?', '#'] sp.2
    let pp := parsePathSearchFrag hp.2
    (String.mk sp.1 ++ "://" ++ String.mk hp.1, if pp.1 = "" then "/" else pp.1)
  | none => (s, "/")

/-- Model of the platform `new URL(url, base)` constructor, restricted to
the components the code observes (`origin`, `pathname`, plus search and
fragment).  An absolute `url` (containing `://`) ignores the base; a
relative one inherits the base origin and resolves its path against the
base path. -/
def parseURL (url : String) (base : String) : URLM :=
  match splitSchemeSep url.toList with
  | some sp =>
    let hp := takeUntilChars ['/', '?', '#'] sp.2
    let pp := parsePathSearchFrag hp.2
    { origin := String.mk sp.1 ++ "://" ++ String.mk hp.1,
      pathname := if pp.1 = "" then "/" else pp.1,
      search := pp.2.1, frag := pp.2.2 }
  | none =>
    let b := parseOriginPath base
    if url = "" then { origin := b.1, pathname := b.2, search := "", frag := "" }
    else
      let pp := parsePathSearchFrag url.toList
      let path :=
        if pp.1 = "" then b.2
        else if pp.1.toList.head? = some '/' then pp.1
        else dirOf b.2 ++ pp.1
      { origin := b.1, pathname := path, search := pp.2.1, frag := pp.2.2 }

/-- Characters that `encodeURIComponent` leaves unescaped. -/
def isUnreservedURI (c : Char) : Bool :=
  c.isAlphanum || ("-_.!~*()".toList.contains c) || c.toNat = 39

/-- Uppercase hexadecimal digit for a value below 16. -/
def hexDigitChar (n : Nat) : Char :=
  if n < 10 then Char.ofNat (48 + n) else Char.ofNat (55 + n)

/-- UTF-8 byte sequence of a character. -/
def utf8ByteList (c : Char) : List Nat :=
  let n := c.toNat
  if n < 128 then [n]
  else if n < 2048 then [192 + n / 64, 128 + n % 64]
  else if n < 65536 then [224 + n / 4096, 128 + (n / 64) % 64, 128 + n % 64]
  else [240 + n / 262144, 128 + (n / 4096) % 64, 128 + (n / 64) % 64, 128 + n % 64]

/-- Percent-encoding of one byte. -/
def pctEncodeByte (b : Nat) : List Char :=
  ['%', hexDigitChar (b / 16), hexDigitChar (b % 16)]

/-- Model of the platform `encodeURIComponent`. -/
def encodeURIComponent (s : String) : String :=
  String.mk (s.toList.flatMap
    (fun c => if isUnreservedURI c then [c] else (utf8ByteList c).flatMap pctEncodeByte))

/-- Model of the JavaScript `String.prototype.split` with a one-character
separator (auxiliary recursion). -/
def splitCharAux (c : Char) : List Char → List Char → List String
  | [], acc => [String.mk acc.reverse]
  | x :: xs, acc =>
    if x = c then String.mk acc.reverse :: splitCharAux c xs []
    else splitCharAux c xs (x :: acc)

/-- Model of the JavaScript `String.prototype.split` with a one-character
separator. -/
def splitChar (c : Char) (s : String) : List String :=
  splitCharAux c s.toList []

/-! ## Data model: DOM nodes, documents, history -/

/-- The view of a DOM element that `_insertContent` observes and mutates:
its class list, its element children (by identity, in order) and its
residual inner markup (the `innerHTML` text when there are no element
children). -/
structure DNode where
  classes : List String
  elems : List Nat
  inner : String
deriving DecidableEq, Repr

/-- A queryable scope: the association of selector strings to the unique
node each resolves to (`querySelector` returns the first match). -/
abbrev SelMap := List (String × DNode)

/-- `querySelector` on a scope. -/
def SelMap.find? (m : SelMap) (sel : String) : Option DNode :=
  match m with
  | [] => none
  | kv :: rest => if kv.1 = sel then some kv.2 else SelMap.find? rest sel

/-- In-place replacement of the node a selector resolves to. -/
def SelMap.set (m : SelMap) (sel : String) (n : DNode) : SelMap :=
  match m with
  | [] => []
  | kv :: rest =>
    if kv.1 = sel then (kv.1, n) :: rest else kv :: SelMap.set rest sel n

/-- A parsed response document: the fragment scope and the document title,
as produced by `DOMParser.parseFromString(content, "text/html")`. -/
structure PDoc where
  frags : SelMap
  title : String
deriving DecidableEq, Repr

/-- One entry of browser history state: the object passed to `pushState`
by `_updateHistoryState` ({title, url: pathname}). -/
structure NavState where
  title : String
  url : String
deriving DecidableEq, Repr

/-- The browser-global state the component observes and mutates:
`window.history` (stack of pushed entries, most recent first, and the
current `history.state`), `document.title`, and `window.location.origin`. -/
structure Browser where
  histEntries : List NavState
  histCurrent : Option NavState
  docTitle : String
  pageOrigin : String
deriving DecidableEq, Repr

/-- `window.history.pushState(st, st.title, path)`: records the entry and
makes it the current state. -/
def pushState (b : Browser) (st : NavState) : Browser :=
  { b with histEntries := st :: b.histEntries, histCurrent := some st }

/-! ## Data model: the fetcher component and the network -/

/-- Errors the embedded code can raise: the synchronous
`InvalidOriginError` thrown by `fetch`, the `TypeError` raised by a null
dereference, and the platform abort error of a cancelled request. -/
inductive JsErr where
  | invalidOrigin
  | typeError
  | abortError
deriving DecidableEq, Repr

/-- Observable notifications dispatched by the component. -/
inductive Ev where
  | requestStarted (u : URLM)
  | requestCompleted (rid : Nat)
  | contentUpdated (sels : List String)
  | historyUpdated (u : URLM) (st : NavState)
  | errorEv (e : JsErr)
deriving DecidableEq, Repr

/-- The state of one `OstinatoFetch` instance: its configured properties,
`this._url` (the resolved URL of the last request issued) and the aborted
flag of `this._abortController` (the single controller created in the
constructor and never replaced). -/
structure Fetcher where
  targetSelectors : String
  method : String
  updateHistory : Bool
  baseUrl : String
  urlOpt : Option URLM
  ctrlAborted : Bool
deriving DecidableEq, Repr

/-- Caller-supplied override options for `fetch(url, options)`. -/
structure FetchOptions where
  method : Option String
  headers : Option (List (String × String))
  redirect : Option String
  credentials : Option String
  queryParams : Option (List (String × String))
deriving DecidableEq, Repr

/-- The empty override options object. -/
def noOpts : FetchOptions :=
  { method := none, headers := none, redirect := none,
    credentials := none, queryParams := none }

/-- The merged options object forwarded to the platform fetch. -/
structure NetOptions where
  method : String
  headers : List (String × String)
  redirect : String
  credentials : String
  queryParams : Option (List (String × String))
deriving DecidableEq, Repr

/-- `Object.assign({method, headers, redirect, credentials}, options)`:
fields present in the override replace the defaults. -/
def mergeOptions (f : Fetcher) (o : FetchOptions) : NetOptions :=
  { method := o.method.getD f.method,
    headers := o.headers.getD [("fetch-fragments", f.targetSelectors)],
    redirect := o.redirect.getD "follow",
    credentials := o.credentials.getD "same-origin",
    queryParams := o.queryParams }

/-- The query-parameter serialization performed inside `fetch` (source
lines 433-439): append `?` when the url has no `?` yet, `&` otherwise,
followed by the encoded `key=value` pairs joined with `&`. -/
def applyQueryParams (url : String) (qp : List (String × String)) : String :=
  url ++ (if url.toList.contains '?' then "&" else "?") ++
    String.intercalate "&"
      (qp.map (fun kv => encodeURIComponent kv.1 ++ "=" ++ encodeURIComponent kv.2))

/-- The url string actually passed to the platform fetch: the original one
when no `queryParams` override is present, the serialized one otherwise. -/
def effectiveUrl (url : String) (qp : Option (List (String × String))) : String :=
  match qp with
  | some ps => applyQueryParams url ps
  | none => url

/-- One request handed to the platform network layer.  `hasAbortSignal`
records whether an abort signal is part of the request options; the code
passes `{abortSignal}` as a third argument to `fetch`, which the platform
ignores, so requests it creates carry no signal. -/
structure PendingReq where
  id : Nat
  url : String
  opts : NetOptions
  hasAbortSignal : Bool
deriving DecidableEq, Repr

/-- The whole observable system: the component instance, the live root
scope it patches, the browser globals, and the platform's list of
in-flight requests. -/
structure Sys where
  f : Fetcher
  root : SelMap
  b : Browser
  pending : List PendingReq
  nextId : Nat
deriving DecidableEq, Repr

/-! ## The operations of OstinatoFetch (lit variant, source lines 331-536) -/

/-- One iteration of the `forEach` body of `_insertContent` (source lines
484-506), faithful to the code: look up fragment and mount, log when either
is missing, then unconditionally clear the mount's children (a `TypeError`
is raised when the mount is null), then read the fragment's children (a
`TypeError` is raised when the fragment is null, with the clearing of the
mount already applied); on success either copy the inner markup (no element
children) or move the element children, then replace the class list.
Returns the updated root scope, the log lines, and the raised error if
any. -/
def insertStep (doc : SelMap) (root : SelMap) (sel : String) :
    SelMap × List String × Option JsErr :=
  let content := SelMap.find? doc sel
  let target := SelMap.find? root sel
  let logs :=
    if target.isNone || content.isNone
    then ["Fragment, " ++ sel ++ ", cannot be found."] else []
  match target with
  | none => (root, logs, some JsErr.typeError)
  | some t =>
    let cleared : DNode := { classes := t.classes, elems := [], inner := "" }
    match content with
    | none => (SelMap.set root sel cleared, logs, some JsErr.typeError)
    | some c =>
      let filled : DNode :=
        if c.elems.isEmpty
        then { classes := t.classes, elems := [], inner := c.inner }
        else { classes := t.classes, elems := c.elems, inner := "" }
      let final : DNode := { classes := c.classes, elems := filled.elems, inner := filled.inner }
      (SelMap.set root sel final, logs, none)

/-- `_insertContent(doc, targetSelectorList)` (source lines 483-507): the
selector list is processed in order; an exception raised inside the
`forEach` body aborts the remaining iterations and propagates, while the
mutations already applied persist. -/
def insertContent (doc : SelMap) (root : SelMap) :
    List String → SelMap × List String × Option JsErr
  | [] => (root, [], none)
  | sel :: rest =>
    let s1 := insertStep doc root sel
    match s1.2.2 with
    | some e => (s1.1, s1.2.1, some e)
    | none =>
      let s2 := insertContent doc s1.1 rest
      (s2.1, s1.2.1 ++ s2.2.1, s2.2.2)

/-- `_updateHistoryState(doc)` (source lines 509-535): when history
tracking is on and a request URL exists, build the {title, pathname}
state, push it only when there is no current entry or the current entry's
url differs, always set `document.title`, and dispatch `history-updated`. -/
def updateHistoryState (f : Fetcher) (b : Browser) (docTitle : String) :
    Browser × List Ev :=
  match f.updateHistory, f.urlOpt with
  | true, some u =>
    let st : NavState := { title := docTitle, url := u.pathname }
    let b1 :=
      match b.histCurrent with
      | none => pushState b st
      | some cur => if st.url ≠ cur.url then pushState b st else b
    ({ b1 with docTitle := st.title }, [Ev.historyUpdated u st])
  | _, _ => (b, [])

/-- `_updateContent(content)` (source lines 468-481): an empty body is
falsy and the whole step is skipped; otherwise the body is parsed, the
fragments inserted, `content-updated` dispatched and the history state
reconciled.  An exception escaping `_insertContent` propagates (the caller
dispatches the `error` event) and suppresses `content-updated` and the
history update.  Returns the new root scope, the new browser state, the
dispatched events, the log lines and the escaped error. -/
def updateContent (parse : String → PDoc) (f : Fetcher) (root : SelMap)
    (b : Browser) (content : String) :
    SelMap × Browser × List Ev × List String × Option JsErr :=
  if content = "" then (root, b, [], [], none)
  else
    let doc := parse content
    let sels := splitChar ',' f.targetSelectors
    let ins := insertContent doc.frags root sels
    match ins.2.2 with
    | some e => (ins.1, b, [], ins.2.1, some e)
    | none =>
      let hb := updateHistoryState f b doc.title
      (ins.1, hb.1, Ev.contentUpdated sels :: hb.2, ins.2.1, none)

/-- `OstinatoFetch.fetch(url, options)` (source lines 421-466): merge the
options, serialize `queryParams` into the url, resolve `this._url`; on a
same-origin resolution abort the (single, never-replaced) controller and
hand the request to the network — the third argument `{abortSignal}` given
to the platform fetch is ignored and `_options` carries no signal, so the
created request has `hasAbortSignal := false` — then dispatch
`request-started`; on a cross-origin resolution throw `InvalidOriginError`
synchronously.  Returns the new system state, the dispatched events and
the thrown error if any. -/
def doFetch (sys : Sys) (url : String) (opts : FetchOptions) :
    Sys × List Ev × Option JsErr :=
  let nopts := mergeOptions sys.f opts
  let url1 := effectiveUrl url nopts.queryParams
  let nopts1 := { nopts with queryParams := none }
  let u := parseURL url1 sys.f.baseUrl
  let f1 := { sys.f with urlOpt := some u }
  if u.origin = sys.b.pageOrigin then
    let f2 := { f1 with ctrlAborted := true }
    let req : PendingReq :=
      { id := sys.nextId, url := url1, opts := nopts1, hasAbortSignal := false }
    ({ sys with f := f2, pending := sys.pending ++ [req], nextId := sys.nextId + 1 },
      [Ev.requestStarted u], none)
  else
    ({ sys with f := f1 }, [], some JsErr.invalidOrigin)

/-- Platform delivery of a successful response for an in-flight request:
the request's promise chain runs — `request-completed` is dispatched, the
body text given to `_updateContent`, and an escaped exception is caught
and dispatched as the `error` event.  A request whose options carry an
abort signal of an aborted controller would instead be rejected with the
platform abort error; requests created by this code never carry one. -/
def deliverResponse (parse : String → PDoc) (sys : Sys) (rid : Nat)
    (body : String) : Sys × List Ev :=
  match sys.pending.find? (fun r => r.id == rid) with
  | none => (sys, [])
  | some req =>
    let pending1 := sys.pending.filter (fun r => r.id != rid)
    if req.hasAbortSignal && sys.f.ctrlAborted then
      ({ sys with pending := pending1 }, [Ev.errorEv JsErr.abortError])
    else
      let uc := updateContent parse sys.f sys.root sys.b body
      match uc.2.2.2.2 with
      | some e =>
        ({ sys with pending := pending1, root := uc.1, b := uc.2.1 },
          Ev.requestCompleted rid :: (uc.2.2.1 ++ [Ev.errorEv e]))
      | none =>
        ({ sys with pending := pending1, root := uc.1, b := uc.2.1 },
          Ev.requestCompleted rid :: uc.2.2.1)

/-- The `popstate` handler installed by `firstUpdated` (source lines
396-416): when the event carries a state, resolve the stored url and the
last requested url against the base and re-issue `fetch` for the stored
pathname exactly when the pathnames differ.  Returns the url passed to the
re-issued `fetch`, when one is issued.  When no request was issued yet,
`this._url` is undefined and the platform coerces it to the string
"undefined". -/
def popstateHandler (f : Fetcher) (evState : Option NavState) : Option String :=
  match evState with
  | none => none
  | some st =>
    let stateUrl := parseURL st.url f.baseUrl
    let cur :=
      match f.urlOpt with
      | some u => u
      | none => parseURL "undefined" f.baseUrl
    if cur.pathname ≠ stateUrl.pathname then some stateUrl.pathname else none

/-! ## The operations of OstinatoFetchTriggers (source lines 544-605) -/

/-- The view of a candidate trigger element: whether it matches the
trigger selector under the binder's root scope, its href attribute, and
the identities of the click listeners attached to it. -/
structure TElem where
  eid : Nat
  matched : Bool
  href : String
  listeners : List Nat
deriving DecidableEq, Repr

/-- One `OstinatoFetchTriggers` instance; `lid` is the identity of the
bound `this.listener` function created by `connectedCallback`. -/
structure Binder where
  lid : Nat
deriving DecidableEq, Repr

/-- `addEventListener(click, l)`: attaching an already-attached listener
is a no-op. -/
def addListener (e : TElem) (l : Nat) : TElem :=
  if e.listeners.contains l then e else { e with listeners := e.listeners ++ [l] }

/-- `removeEventListener(click, l)`: removes the attached listener. -/
def removeListener (e : TElem) (l : Nat) : TElem :=
  { e with listeners := e.listeners.erase l }

/-- `connectedCallback` (source lines 571-579): attach `this.listener` to
every element matching the trigger selector under the root scope. -/
def connectedCallback (bd : Binder) (page : List TElem) : List TElem :=
  page.map (fun e => if e.matched then addListener e bd.lid else e)

/-- `disconnectedCallback` (source lines 581-588): remove `this.listener`
from every element matching the trigger selector under the root scope. -/
def disconnectedCallback (bd : Binder) (page : List TElem) : List TElem :=
  page.map (fun e => if e.matched then removeListener e bd.lid else e)

/-- Outcome of a click on an element. -/
inductive ClickBehavior where
  | defaultNavigation
  | fetchIntercept
deriving DecidableEq, Repr

/-- What a click on the element does: the installed interceptor prevents
the default action and routes the href through the binder; without it the
browser performs the default navigation. -/
def clickWith (e : TElem) (bd : Binder) : ClickBehavior :=
  if e.listeners.contains bd.lid then ClickBehavior.fetchIntercept
  else ClickBehavior.defaultNavigation

/-- The action `triggerRequest` takes for an href. -/
inductive TriggerAction where
  | fetchVia (href : String)
  | windowOpen (href : String)
deriving DecidableEq, Repr

/-- `_handleXhrClick` followed by `triggerRequest` (source lines 590-604):
prevent the default action, read the href attribute, resolve it against
the bound fetcher's base url; off-site targets are opened as a new
navigation, same-origin ones are forwarded to the fetcher's `fetch`.
The boolean records that `preventDefault` was called. -/
def handleXhrClick (fetcherBaseUrl : String) (pageOrigin : String)
    (href : String) : Bool × TriggerAction :=
  let u := parseURL href fetcherBaseUrl
  (true,
    if u.origin ≠ pageOrigin then TriggerAction.windowOpen href
    else TriggerAction.fetchVia href)

/-! ## Claim-side reference definitions (worded from the specification) -/

/-- Reference form of one applied patch, following the specification's
words (section 4.1): clear the mount, then copy the inner content verbatim
when the fragment has no element children, otherwise move the element
children preserving order; the class list is a full replacement. -/
def specPatchedNode (c : DNode) : DNode :=
  if c.elems = [] then { classes := c.classes, elems := [], inner := c.inner }
  else { classes := c.classes, elems := c.elems, inner := "" }

/-- Reference push condition, following the specification's words
(section 4.1): push exactly when there is no current entry or its path
differs from the new state's path. -/
def specShouldPush (cur : Option NavState) (path : String) : Bool :=
  match cur with
  | none => true
  | some c => c.url != path

/-- Reference query-string serialization, following the specification's
words (section 4.1): URL-encoded key=value pairs joined with ampersands. -/
def specQueryString (qp : List (String × String)) : String :=
  String.intercalate "&"
    (qp.map (fun kv => encodeURIComponent kv.1 ++ "=" ++ encodeURIComponent kv.2))

/-! ## Concrete instances used by witnesses and counterexamples -/

/-- A fetcher configured for one target selector with history tracking. -/
def siteF : Fetcher :=
  { targetSelectors := "#main", method := "get", updateHistory := true,
    baseUrl := "https://app.example", urlOpt := none, ctrlAborted := false }

/-- Browser globals of the page hosting `siteF`. -/
def siteB : Browser :=
  { histEntries := [], histCurrent := none, docTitle := "T0",
    pageOrigin := "https://app.example" }

/-- The initial system: one mount point `#main` holding old content. -/
def site0 : Sys :=
  { f := siteF, root := [("#main", { classes := ["old"], elems := [5], inner := "" })],
    b := siteB, pending := [], nextId := 0 }

/-- The system after `fetch("/a")`: request 0 is in flight. -/
def siteAfterA : Sys := (doFetch site0 "/a" noOpts).1

/-- The system after `fetch("/a")` then `fetch("/b")`: request 0 (for
`/a`) was superseded by request 1 (for `/b`). -/
def siteAfterAB : Sys := (doFetch siteAfterA "/b" noOpts).1

/-- Parser behaviour for the response body of request A: a fragment for
`#main` carrying new classes and content, title "PageA". -/
def parseA : String → PDoc := fun s =>
  if s = "BODYA" then
    { frags := [("#main", { classes := ["a"], elems := [], inner := "newA" })],
      title := "PageA" }
  else { frags := [], title := "" }

/-- Response document for the C3 scenario: a fragment for `#a` exists,
none for `#c`. -/
def c3doc : SelMap := [("#a", { classes := ["x"], elems := [1], inner := "" })]

/-- Live root scope for the C3 scenario: mount points for both `#c` and
`#a`. -/
def c3root : SelMap :=
  [("#c", { classes := ["keep"], elems := [7], inner := "t" }),
   ("#a", { classes := [], elems := [9], inner := "" })]

/-! ## Helper lemmas -/

/-- Erasing a freshly appended element restores the original list. -/
theorem eraseAppendSelf (l : List Nat) (x : Nat) (h : x ∉ l) :
    (l ++ [x]).erase x = l := by
  induction l with
  | nil => simp
  | cons a t ih =>
    have hax : a ≠ x := by intro hax; exact h (hax ▸ List.mem_cons_self a t)
    have ht : x ∉ t := fun hx => h (List.mem_cons_of_mem a hx)
    simp [List.erase_cons, hax, ih ht]

/-- Attaching a listener does not change whether the element matches the
trigger selector. -/
theorem addListener_matched (e : TElem) (l : Nat) :
    (addListener e l).matched = e.matched := by
  unfold addListener
  split <;> rfl

/-- Removing a listener that was freshly attached restores the element. -/
theorem removeListener_addListener (e : TElem) (l : Nat) (h : l ∉ e.listeners) :
    removeListener (addListener e l) l = e := by
  unfold addListener removeListener
  have hc : e.listeners.contains l = false := by
    simpa using h
  rw [if_neg (by simp [hc, h])]
  simp [eraseAppendSelf e.listeners l h]

/-! ## Claim theorems -/

/-- C2: when the url, resolved against the configured base URL after the
query-parameter serialization, has an origin different from the page's
origin, `fetch` fails with `InvalidOriginError` synchronously — the error
is returned to the caller, no `request-started` (or any other) event is
dispatched, and no request is handed to the network layer. -/
theorem c2_cross_origin_fetch_fails (sys : Sys) (url : String) (opts : FetchOptions)
    (h : (parseURL (effectiveUrl url (mergeOptions sys.f opts).queryParams)
            sys.f.baseUrl).origin ≠ sys.b.pageOrigin) :
    (doFetch sys url opts).2.2 = some JsErr.invalidOrigin ∧
    (doFetch sys url opts).2.1 = [] ∧
    (doFetch sys url opts).1.pending = sys.pending ∧
    (doFetch sys url opts).1.nextId = sys.nextId := by
  unfold doFetch
  simp only [if_neg h]
  exact ⟨trivial, trivial, trivial, trivial⟩

/-- C2 witness: a cross-origin url on the concrete site instance. -/
theorem c2_cross_origin_fetch_fails_witness :
    ((parseURL (effectiveUrl "https://evil.example/x"
        (mergeOptions site0.f noOpts).queryParams) site0.f.baseUrl).origin ≠
      site0.b.pageOrigin) ∧
    ((doFetch site0 "https://evil.example/x" noOpts).2.2 = some JsErr.invalidOrigin ∧
     (doFetch site0 "https://evil.example/x" noOpts).2.1 = [] ∧
     (doFetch site0 "https://evil.example/x" noOpts).1.pending = site0.pending ∧
     (doFetch site0 "https://evil.example/x" noOpts).1.nextId = site0.nextId) :=
  ⟨by decide, c2_cross_origin_fetch_fails site0 "https://evil.example/x" noOpts (by decide)⟩

/-- C4: when both the fragment node and the mount node exist for a
selector, the patch step yields exactly the node described by the
specification — children cleared then either the inner content copied
verbatim (no element children) or the element children moved in order, and
the class list fully replaced — with no skip report and no error. -/
theorem c4_patch_follows_spec (doc root : SelMap) (sel : String) (c t : DNode)
    (hc : SelMap.find? doc sel = some c) (ht : SelMap.find? root sel = some t) :
    insertStep doc root sel = (SelMap.set root sel (specPatchedNode c), [], none) := by
  unfold insertStep specPatchedNode
  rw [hc, ht]
  cases he : c.elems with
  | nil => simp [he]
  | cons a l => simp [he]

/-- C4 witness: a concrete fragment with element children patched into a
concrete mount. -/
theorem c4_patch_follows_spec_witness :
    SelMap.find? c3doc "#a" = some { classes := ["x"], elems := [1], inner := "" } ∧
    SelMap.find? c3root "#a" = some { classes := [], elems := [9], inner := "" } ∧
    insertStep c3doc c3root "#a" =
      (SelMap.set c3root "#a"
        (specPatchedNode { classes := ["x"], elems := [1], inner := "" }), [], none) :=
  ⟨by decide, by decide,
    c4_patch_follows_spec c3doc c3root "#a"
      { classes := ["x"], elems := [1], inner := "" }
      { classes := [], elems := [9], inner := "" } (by decide) (by decide)⟩

/-- C5: with history tracking enabled and a request URL recorded, the
history reconciliation pushes a new entry exactly under the
specification's condition — no current entry, or a current entry whose
path differs from the new state's path — and always sets the document
title to the new state's title. -/
theorem c5_history_push_and_title (f : Fetcher) (b : Browser) (u : URLM) (tl : String)
    (hh : f.updateHistory = true) (hu : f.urlOpt = some u) :
    (updateHistoryState f b tl).1.histEntries =
      (if specShouldPush b.histCurrent u.pathname
        then ({ title := tl, url := u.pathname } : NavState) :: b.histEntries
        else b.histEntries) ∧
    (updateHistoryState f b tl).1.docTitle = tl := by
  unfold updateHistoryState specShouldPush
  rw [hh, hu]
  cases hcur : b.histCurrent with
  | none => simp [pushState]
  | some cur =>
    by_cases hpath : u.pathname = cur.url
    · simp [hpath, pushState, bne_iff_ne]
    · simp [hpath, pushState, bne_iff_ne, Ne.symm hpath]

/-- C5 witness: first call pushes (no current entry), and a repeat call
for the same path on the resulting browser state pushes nothing while
still setting the title. -/
theorem c5_history_push_and_title_witness :
    siteAfterA.f.updateHistory = true ∧
    siteAfterA.f.urlOpt = some (parseURL "/a" "https://app.example") ∧
    ((updateHistoryState siteAfterA.f siteAfterA.b "PageA").1.histEntries =
      (if specShouldPush siteAfterA.b.histCurrent
            (parseURL "/a" "https://app.example").pathname
        then ({ title := "PageA", url := (parseURL "/a" "https://app.example").pathname } :
            NavState) :: siteAfterA.b.histEntries
        else siteAfterA.b.histEntries) ∧
     (updateHistoryState siteAfterA.f siteAfterA.b "PageA").1.docTitle = "PageA") :=
  ⟨by decide, by decide,
    c5_history_push_and_title siteAfterA.f siteAfterA.b
      (parseURL "/a" "https://app.example") "PageA" (by decide) (by decide)⟩

/-- C6: the popstate handler re-issues `fetch` exactly when the stored
state's path component differs from the path of the last request this
instance issued, and then for precisely that stored path; a state whose
path is identical (for instance a hash-only change) triggers no re-fetch,
and an event carrying no state triggers nothing. -/
theorem c6_pop_refetch_iff_path_differs (f : Fetcher) (u : URLM) (st : NavState)
    (hu : f.urlOpt = some u) :
    (popstateHandler f (some st) =
      (if u.pathname ≠ (parseURL st.url f.baseUrl).pathname
        then some (parseURL st.url f.baseUrl).pathname else none)) ∧
    (u.pathname = (parseURL st.url f.baseUrl).pathname →
      popstateHandler f (some st) = none) ∧
    popstateHandler f none = none := by
  unfold popstateHandler
  rw [hu]
  refine ⟨rfl, ?_, rfl⟩
  intro hEq
  simp [hEq]

/-- C6 witness: with `/page1` as the last requested url, a stored state
for `/page2` re-fetches exactly `/page2`, while a stored state for
`/page1#sec` (same path, hash-only difference) re-fetches nothing. -/
theorem c6_pop_refetch_iff_path_differs_witness :
    siteAfterA.f.urlOpt = some (parseURL "/a" "https://app.example") ∧
    popstateHandler siteAfterA.f (some { title := "T", url := "/page2" }) = some "/page2" ∧
    popstateHandler siteAfterA.f (some { title := "T", url := "/a#sec" }) = none := by
  refine ⟨by decide, ?_, ?_⟩
  · have h := c6_pop_refetch_iff_path_differs siteAfterA.f
      (parseURL "/a" "https://app.example") { title := "T", url := "/page2" } (by decide)
    rw [h.1]
    decide
  · have h := c6_pop_refetch_iff_path_differs siteAfterA.f
      (parseURL "/a" "https://app.example") { title := "T", url := "/a#sec" } (by decide)
    exact h.2.1 (by decide)

/-- C7: when the override options carry a `queryParams` mapping and the
resulting url is same-origin, the request handed to the network layer uses
the url with the URL-encoded key=value pairs appended — introduced by `?`
when the url has no `?` yet, by `&` otherwise, joined with `&` — and its
forwarded options have the `queryParams` entry removed while keeping the
merged defaults. -/
theorem c7_query_params_serialized (sys : Sys) (url : String) (opts : FetchOptions)
    (qp : List (String × String)) (hq : opts.queryParams = some qp)
    (ho : (parseURL (applyQueryParams url qp) sys.f.baseUrl).origin = sys.b.pageOrigin) :
    (doFetch sys url opts).1.pending =
      sys.pending ++
        [{ id := sys.nextId,
           url := url ++ (if url.toList.contains '?' then "&" else "?") ++ specQueryString qp,
           opts := { mergeOptions sys.f opts with queryParams := none },
           hasAbortSignal := false }] := by
  have he : effectiveUrl url (mergeOptions sys.f opts).queryParams = applyQueryParams url qp := by
    simp [mergeOptions, effectiveUrl, hq]
  simp only [doFetch]
  rw [he]
  simp only [if_pos ho]
  simp [applyQueryParams, specQueryString]

/-- C7 witness: concrete parameters appended to a bare path. -/
theorem c7_query_params_serialized_witness :
    ({ noOpts with queryParams := some [("a", "1"), ("b c", "d&e")] } :
        FetchOptions).queryParams = some [("a", "1"), ("b c", "d&e")] ∧
    (parseURL (applyQueryParams "/p" [("a", "1"), ("b c", "d&e")]) site0.f.baseUrl).origin =
      site0.b.pageOrigin ∧
    (doFetch site0 "/p" { noOpts with queryParams := some [("a", "1"), ("b c", "d&e")] }).1.pending =
      site0.pending ++
        [{ id := site0.nextId,
           url := "/p" ++ (if "/p".toList.contains '?' then "&" else "?") ++
             specQueryString [("a", "1"), ("b c", "d&e")],
           opts := { mergeOptions site0.f
              { noOpts with queryParams := some [("a", "1"), ("b c", "d&e")] } with
              queryParams := none },
           hasAbortSignal := false }] :=
  ⟨by decide, by decide,
    c7_query_params_serialized site0 "/p"
      { noOpts with queryParams := some [("a", "1"), ("b c", "d&e")] }
      [("a", "1"), ("b c", "d&e")] (by decide) (by decide)⟩

/-- C8: deactivating the binder removes exactly the click interceptors its
activation installed — for a listener identity not previously attached
anywhere, disconnect after connect restores every element — so a click on
any previously bound element after deactivation performs the default
navigation instead of invoking `fetch`. -/
theorem c8_disconnect_removes_installed (bd : Binder) (page : List TElem)
    (hfresh : ∀ e ∈ page, bd.lid ∉ e.listeners) :
    disconnectedCallback bd (connectedCallback bd page) = page ∧
    ∀ e ∈ disconnectedCallback bd (connectedCallback bd page),
      clickWith e bd = ClickBehavior.defaultNavigation := by
  have hmain : disconnectedCallback bd (connectedCallback bd page) = page := by
    unfold connectedCallback disconnectedCallback
    rw [List.map_map]
    induction page with
    | nil => rfl
    | cons e rest ih =>
      have he : bd.lid ∉ e.listeners := hfresh e (List.mem_cons_self e rest)
      have hrest : ∀ x ∈ rest, bd.lid ∉ x.listeners :=
        fun x hx => hfresh x (List.mem_cons_of_mem e hx)
      simp only [List.map_cons, Function.comp]
      rw [ih hrest]
      by_cases hm : e.matched
      · simp [hm, addListener_matched, removeListener_addListener e bd.lid he]
      · simp [hm]
  refine ⟨hmain, ?_⟩
  intro e he
  rw [hmain] at he
  have hfree := hfresh e he
  unfold clickWith
  rw [if_neg (by simpa using hfree)]

/-- C8 witness: two concrete elements, one matching the trigger selector,
restored exactly by disconnect after connect. -/
theorem c8_disconnect_removes_installed_witness :
    (∀ e ∈ [({ eid := 0, matched := true, href := "/x", listeners := [] } : TElem),
            { eid := 1, matched := false, href := "/y", listeners := [3] }],
        (7 : Nat) ∉ e.listeners) ∧
    (disconnectedCallback { lid := 7 }
        (connectedCallback { lid := 7 }
          [({ eid := 0, matched := true, href := "/x", listeners := [] } : TElem),
           { eid := 1, matched := false, href := "/y", listeners := [3] }]) =
      [({ eid := 0, matched := true, href := "/x", listeners := [] } : TElem),
       { eid := 1, matched := false, href := "/y", listeners := [3] }]) :=
  ⟨by decide,
    (c8_disconnect_removes_installed { lid := 7 }
      [({ eid := 0, matched := true, href := "/x", listeners := [] } : TElem),
       { eid := 1, matched := false, href := "/y", listeners := [3] }] (by decide)).1⟩

/-- C9: the click interceptor always prevents the default navigation and,
for the href read from the element, forwards it to the bound fetcher's
`fetch` exactly when the href resolved against the fetcher's base URL is
same-origin, and opens it as a new navigation exactly when it is
cross-origin. -/
theorem c9_click_routes_by_origin (base pageOrigin href : String) :
    (handleXhrClick base pageOrigin href).1 = true ∧
    ((parseURL href base).origin = pageOrigin →
      (handleXhrClick base pageOrigin href).2 = TriggerAction.fetchVia href) ∧
    ((parseURL href base).origin ≠ pageOrigin →
      (handleXhrClick base pageOrigin href).2 = TriggerAction.windowOpen href) := by
  unfold handleXhrClick
  refine ⟨rfl, ?_, ?_⟩
  · intro hsame
    simp [hsame]
  · intro hdiff
    simp [hdiff]

/-- C9 witness: a same-origin link is forwarded to `fetch`, a cross-origin
link is opened as a new navigation. -/
theorem c9_click_routes_by_origin_witness :
    ((parseURL "/x" "https://app.example").origin = "https://app.example" ∧
      (handleXhrClick "https://app.example" "https://app.example" "/x").2 =
        TriggerAction.fetchVia "/x") ∧
    ((parseURL "https://evil.example/y" "https://app.example").origin ≠ "https://app.example" ∧
      (handleXhrClick "https://app.example" "https://app.example" "https://evil.example/y").2 =
        TriggerAction.windowOpen "https://evil.example/y") :=
  ⟨⟨by decide,
      (c9_click_routes_by_origin "https://app.example" "https://app.example" "/x").2.1 (by decide)⟩,
    ⟨by decide,
      (c9_click_routes_by_origin "https://app.example" "https://app.example"
        "https://evil.example/y").2.2 (by decide)⟩⟩

/-- C10: delivering a successful response whose body reads as the empty
string leaves the root scope and the browser state (history and title)
unchanged and dispatches only `request-completed` — no `content-updated`
and no `history-updated` — for any parser and any in-flight request
created by this code (which carries no abort signal). -/
theorem c10_empty_body_noop (parse : String → PDoc) (sys : Sys) (rid : Nat)
    (req : PendingReq)
    (hfind : sys.pending.find? (fun r => r.id == rid) = some req)
    (hsig : req.hasAbortSignal = false) :
    (deliverResponse parse sys rid "").1.root = sys.root ∧
    (deliverResponse parse sys rid "").1.b = sys.b ∧
    (deliverResponse parse sys rid "").2 = [Ev.requestCompleted rid] := by
  unfold deliverResponse
  rw [hfind]
  simp [hsig, updateContent]

/-- C10 witness: the in-flight request of the concrete site receives an
empty body. -/
theorem c10_empty_body_noop_witness :
    siteAfterA.pending.find? (fun r => r.id == 0) =
      some { id := 0, url := "/a",
             opts := { method := "get", headers := [("fetch-fragments", "#main")],
                       redirect := "follow", credentials := "same-origin",
                       queryParams := none },
             hasAbortSignal := false } ∧
    ((deliverResponse parseA siteAfterA 0 "").1.root = siteAfterA.root ∧
     (deliverResponse parseA siteAfterA 0 "").1.b = siteAfterA.b ∧
     (deliverResponse parseA siteAfterA 0 "").2 = [Ev.requestCompleted 0]) :=
  ⟨by decide,
    c10_empty_body_noop parseA siteAfterA 0
      { id := 0, url := "/a",
        opts := { method := "get", headers := [("fetch-fragments", "#main")],
                  redirect := "follow", credentials := "same-origin",
                  queryParams := none },
        hasAbortSignal := false } (by decide) rfl⟩

/-- C1: the claim fails on the code.  After `fetch("/a")` then
`fetch("/b")` on the same instance, request 0 (for `/a`) is still pending
with no abort signal attached — the single abort controller is aborted but
its signal is never part of the request options (the code passes it as a
third argument, which the platform fetch ignores, and never creates a new
controller) — so when request 0's stale response arrives it still patches
the DOM, dispatches `content-updated`, and pushes a history entry. -/
theorem c1_stale_response_still_applied :
    (deliverResponse parseA siteAfterAB 0 "BODYA").1.root ≠ siteAfterAB.root ∧
    Ev.contentUpdated ["#main"] ∈ (deliverResponse parseA siteAfterAB 0 "BODYA").2 ∧
    (deliverResponse parseA siteAfterAB 0 "BODYA").1.b.histEntries ≠
      siteAfterAB.b.histEntries := by decide

/-- C3: the claim fails on the code.  With a response document missing the
fragment for `#c` while the live scope has a mount for it, processing the
selector list `#c, #a` logs the skip message but then still dereferences
the missing fragment: the `#c` mount is cleared (not left unmodified), a
`TypeError` aborts the cycle, and the remaining selector `#a` is never
applied. -/
theorem c3_missing_fragment_aborts_cycle :
    (insertContent c3doc c3root ["#c", "#a"]).2.2 = some JsErr.typeError ∧
    (insertContent c3doc c3root ["#c", "#a"]).2.1 = ["Fragment, #c, cannot be found."] ∧
    SelMap.find? (insertContent c3doc c3root ["#c", "#a"]).1 "#c" =
      some { classes := ["keep"], elems := [], inner := "" } ∧
    SelMap.find? c3root "#c" = some { classes := ["keep"], elems := [7], inner := "t" } ∧
    SelMap.find? (insertContent c3doc c3root ["#c", "#a"]).1 "#a" =
      some { classes := [], elems := [9], inner := "" } := by decide

end Ostinato
